import Mathlib

/-
Verification development for the Food_Bridge dual-store synchronization module
(src/lib/firebase-service.ts).

Shallow embedding conventions:
* Timestamps are epoch milliseconds (Nat); the source serializes them with
  Date.toISOString, an injective encoding, so equality of times is preserved.
* A JavaScript number produced by parseInt/parseFloat is modelled as
  Option Int, where none models NaN.
* Store calls are modelled by explicit environments: each operation takes the
  outcomes the external stores would produce (a rejected promise is
  Except.error, a resolved one Except.ok) and returns its result together
  with the ordered list of store calls it attempted (its trace).
* Optional TS string fields whose absence is tested with `||` (undefined or
  the empty string, both falsy) are modelled as Option, none covering the
  falsy cases.
-/

/-- Canonical donation lifecycle status (FoodDonation.status, source lines 34). -/
inductive DonationStatus
  | pending
  | matched
  | completed
  | expired
deriving DecidableEq

/-- Supabase food_items status vocabulary (source lines 346, 399-403). -/
inductive FoodItemStatus
  | available
  | reserved
  | collected
  | expired
deriving DecidableEq

/-- Canonical requirement lifecycle status (FoodRequirement.status, source line 59). -/
inductive RequirementStatus
  | active
  | matched
  | fulfilled
deriving DecidableEq

/-- Supabase requests status vocabulary (source lines 438-441, 556). -/
inductive RequestStatus
  | active
  | matched
  | fulfilled
deriving DecidableEq

/-- Match lifecycle status (Match.status, source line 72). -/
inductive MatchStatus
  | pending
  | confirmed
  | completed
  | cancelled
deriving DecidableEq

/-- Supabase transactions status vocabulary used by createMatch (source lines 683-684). -/
inductive TransactionStatus
  | pending
  | completed
deriving DecidableEq

/-- Status translation used by updateDonationStatus (source lines 399-403):
pending becomes available, matched becomes reserved, completed becomes collected,
with expired as the remaining ternary fall-through. -/
def donationStatusToSupabase : DonationStatus → FoodItemStatus
  | DonationStatus.pending => FoodItemStatus.available
  | DonationStatus.matched => FoodItemStatus.reserved
  | DonationStatus.completed => FoodItemStatus.collected
  | DonationStatus.expired => FoodItemStatus.expired

/-- Status translation used by convertSupabaseToFoodDonation (source lines 496-498):
available becomes pending, reserved becomes matched, collected becomes completed,
with expired as the catch-all branch. -/
def supabaseStatusToDonation : FoodItemStatus → DonationStatus
  | FoodItemStatus.available => DonationStatus.pending
  | FoodItemStatus.reserved => DonationStatus.matched
  | FoodItemStatus.collected => DonationStatus.completed
  | FoodItemStatus.expired => DonationStatus.expired

/-- Status translation used by updateRequirementStatus (source lines 438-441):
active and matched map to themselves, fulfilled is the fall-through. -/
def requirementStatusToSupabase : RequirementStatus → RequestStatus
  | RequirementStatus.active => RequestStatus.active
  | RequirementStatus.matched => RequestStatus.matched
  | RequirementStatus.fulfilled => RequestStatus.fulfilled

/-- Status translation used by convertSupabaseToRequirement (source lines 634-635):
active and matched map to themselves, fulfilled is the catch-all branch. -/
def supabaseStatusToRequirement : RequestStatus → RequirementStatus
  | RequestStatus.active => RequirementStatus.active
  | RequestStatus.matched => RequirementStatus.matched
  | RequestStatus.fulfilled => RequirementStatus.fulfilled

/-- The raw status pass-through performed by the inline converter of
listenToActiveRequirements (source line 850): the status string of the row is
used unchanged, which identifies the same-named members of the two vocabularies. -/
def requestStatusAsRequirement : RequestStatus → RequirementStatus
  | RequestStatus.active => RequirementStatus.active
  | RequestStatus.matched => RequirementStatus.matched
  | RequestStatus.fulfilled => RequirementStatus.fulfilled

/-- Status translation used by createMatch for the transactions row
(source lines 683-684): confirmed becomes completed, pending stays pending,
every other status falls through to completed. -/
def matchStatusToTransaction : MatchStatus → TransactionStatus
  | MatchStatus.confirmed => TransactionStatus.completed
  | MatchStatus.pending => TransactionStatus.pending
  | MatchStatus.completed => TransactionStatus.completed
  | MatchStatus.cancelled => TransactionStatus.completed

/-- JavaScript string truthiness for `process.env` values: undefined (none) and
the empty string are falsy. -/
def truthyStr : Option String → Bool
  | none => false
  | some s => s != ""

/-- The JS idiom `s || d` on strings: the empty string is falsy and selects d. -/
def jsOrStr (s d : String) : String :=
  if s == "" then d else s

/-- The JS idiom `n || 0` on numbers, with none modelling NaN; note that a
parsed 0 is falsy in JS and also yields 0, so the two readings agree. -/
def jsOrZero : Option Int → Int
  | none => 0
  | some v => v

/-- Whitespace skipped by parseInt before reading digits. -/
def isJsSpace (c : Char) : Bool :=
  c == ' ' || c == '\t' || c == '\n' || c == '\r'

/-- Accumulates the value of the leading run of decimal digits; characters after
the first non-digit are ignored, and none is returned when no digit was read. -/
def digitsVal : List Char → Option Nat → Option Nat
  | [], acc => acc
  | c :: cs, acc =>
    if c.isDigit then digitsVal cs (some (acc.getD 0 * 10 + (c.toNat - 48)))
    else acc

/-- Model of the JS parseInt builtin on its radix-10 path, as applied to
servingSize (source line 555): leading whitespace is skipped, an optional sign
is read, then the longest run of decimal digits; none models NaN. -/
def jsParseInt (s : String) : Option Int :=
  match s.data.dropWhile isJsSpace with
  | '-' :: rest => (digitsVal rest none).map fun n => -(n : Int)
  | '+' :: rest => (digitsVal rest none).map fun n => (n : Int)
  | cs => (digitsVal cs none).map fun n => (n : Int)

/-- Milliseconds in a day, as written 24 * 60 * 60 * 1000 in the source. -/
def msPerDay : Nat := 24 * 60 * 60 * 1000

/-- The two configuration values read by isDatabaseAvailable
(NEXT_PUBLIC_FIREBASE_API_KEY and NEXT_PUBLIC_FIREBASE_PROJECT_ID);
none models an unset variable. -/
structure FirebaseConfig where
  apiKey : Option String
  projectId : Option String

/-- Model of isDatabaseAvailable (source lines 276-294): true exactly when both
configuration values are present, non-empty, and differ from the placeholder
sentinels demo-api-key and demo-project. The surrounding try/catch cannot fire
on this pure computation. -/
def isDatabaseAvailable (c : FirebaseConfig) : Bool :=
  truthyStr c.apiKey && !(c.apiKey == some "demo-api-key") &&
    truthyStr c.projectId && !(c.projectId == some "demo-project")

/-- Failure values surfaced by the two stores. supabaseNullResult models the
`new Error('Failed to save ... to Supabase')` thrown when a create returns null;
storeRejected models any rejected store promise, tagged to tell instances apart. -/
inductive StoreErr
  | supabaseNullResult
  | storeRejected (code : Nat)
deriving DecidableEq

/-- The row handed back by a successful Supabase create: the assigned identity
and creation timestamp (source fields id and created_at). -/
structure SupabaseRow where
  id : String
  created_at : Nat
deriving DecidableEq

/-- The food_items insert row built by createDonation (source lines 334-347). -/
structure FoodItemInsert where
  donor_id : String
  food_type : String
  quantity : Option Int
  unit : String
  description : String
  pickup_address : String
  pickup_latitude : Int
  pickup_longitude : Int
  pickup_time : Nat
  expiry_date : Nat
  image_url : String
  status : FoodItemStatus
deriving DecidableEq

/-- The requests insert row built by createRequirement (source lines 543-557). -/
structure RequestInsert where
  ngo_id : String
  title : String
  food_type : String
  quantity : Option Int
  unit : String
  urgency : String
  description : String
  delivery_address : String
  delivery_latitude : Int
  delivery_longitude : Int
  needed_by : Nat
  serving_size : Int
  status : RequestStatus
deriving DecidableEq

/-- The transactions insert row built by createMatch (source lines 677-689). -/
structure TransactionInsert where
  donor_id : String
  ngo_id : String
  food_item_id : String
  request_id : String
  quantity_transferred : Int
  status : TransactionStatus
  pickup_time : Nat
  delivery_time : Nat
  match_score : Int
  distance_km : Int
deriving DecidableEq

/-- An activity-feed entry pushed to the real-time store. The claim-relevant
fields are kept: the pushed key, the event type string, the identity of the
subject record, the timestamp, and the human-readable message; the remaining
denormalized descriptive fields (names, food details, coordinates) are elided. -/
structure ActivityEntry where
  id : String
  type : String
  subjectId : String
  timestamp : Nat
  message : String
deriving DecidableEq

/-- One attempted store call. The supabase constructors carry the full row or
update so the relational write content is visible in traces; the firebase
mirror writes are identified by their database path, with stampsMatchedAt
recording whether the update payload carried a matchedAt timestamp.
mockMutation is the in-memory mutation of the mock arrays. -/
inductive Effect
  | supabaseInsertFood (row : FoodItemInsert)
  | supabaseInsertRequest (row : RequestInsert)
  | supabaseInsertTransaction (row : TransactionInsert)
  | supabaseUpdateFoodStatus (id : String) (status : FoodItemStatus)
  | supabaseUpdateRequestStatus (id : String) (status : RequestStatus)
  | firebaseSet (path : String)
  | firebaseUpdate (path : String) (stampsMatchedAt : Bool)
  | firebaseGet (path : String)
  | activityAppend (entry : ActivityEntry)
  | mockMutation
deriving DecidableEq

/-- True for the calls that hit the relational (Supabase) store. -/
def isRelationalWrite : Effect → Bool
  | Effect.supabaseInsertFood _ => true
  | Effect.supabaseInsertRequest _ => true
  | Effect.supabaseInsertTransaction _ => true
  | Effect.supabaseUpdateFoodStatus _ _ => true
  | Effect.supabaseUpdateRequestStatus _ _ => true
  | _ => false

/-- True when the first attempted call of a trace is a relational-store write. -/
def startsWithRelational : List Effect → Bool
  | [] => false
  | e :: _ => isRelationalWrite e

/-- Counts the activity-feed entries of type donation_created in a trace. -/
def donationCreatedCount : List Effect → Nat
  | [] => 0
  | Effect.activityAppend en :: t =>
    (if en.type == "donation_created" then 1 else 0) + donationCreatedCount t
  | _ :: t => donationCreatedCount t

/-- The caller-supplied donation (Omit of FoodDonation over id and timestamps,
source line 324); the nested location object is flattened. pickupTime and
expiryDate are none when omitted or empty, the falsy cases of the `||` default. -/
structure DonationInput where
  donorId : String
  donorName : String
  foodType : String
  quantity : String
  unit : String
  description : String
  address : String
  lat : Int
  lng : Int
  pickupTime : Option Nat
  expiryDate : Option Nat
  imageUrl : Option String
deriving DecidableEq

/-- The caller-supplied requirement (source line 534), location flattened,
neededBy none when omitted or empty. -/
structure RequirementInput where
  receiverId : String
  receiverName : String
  organizationName : String
  title : String
  foodType : String
  quantity : String
  unit : String
  urgency : String
  description : String
  address : String
  lat : Int
  lng : Int
  neededBy : Option Nat
  servingSize : String
deriving DecidableEq

/-- The caller-supplied match (source line 671). -/
structure MatchInput where
  donationId : String
  requirementId : String
  donorId : String
  receiverId : String
  status : MatchStatus
  distance : Int
  matchScore : Int
deriving DecidableEq

/-- Store outcomes for one run of createDonation or createRequirement:
the Supabase create (error models a rejected promise, ok none a null row),
the firebase mirror set, the pushed activity key, and the activity set. -/
structure CreateEnv where
  supabaseResult : Except StoreErr (Option SupabaseRow)
  mirrorWrite : Except StoreErr Unit
  activityKey : String
  activityWrite : Except StoreErr Unit

/-- Store outcomes for one run of createMatch; matchKey is the key allocated by
push on the matches path. -/
structure MatchEnv where
  supabaseResult : Except StoreErr (Option SupabaseRow)
  matchKey : String
  mirrorWrite : Except StoreErr Unit
  activityKey : String
  activityWrite : Except StoreErr Unit

/-- Result and trace of one create operation. -/
structure CreateResult where
  result : Except StoreErr String
  trace : List Effect

/-- Store outcomes for one run of a status-update operation. -/
structure UpdateEnv where
  supabaseWrite : Except StoreErr Unit
  firebaseWrite : Except StoreErr Unit

/-- Result and trace of one status-update operation. -/
structure UpdateResult where
  result : Except StoreErr Unit
  trace : List Effect

/-- The supabaseData row built by createDonation (source lines 331-347):
pickup time defaults to now, expiry to now plus 7 days, image_url to the empty
string, status is the literal available; pf is the parseFloat builtin of the
JS environment, applied to quantity. -/
def createDonationInsert (pf : String → Option Int) (now : Nat)
    (d : DonationInput) : FoodItemInsert :=
  { donor_id := d.donorId
    food_type := d.foodType
    quantity := pf d.quantity
    unit := d.unit
    description := d.description
    pickup_address := d.address
    pickup_latitude := d.lat
    pickup_longitude := d.lng
    pickup_time := d.pickupTime.getD now
    expiry_date := d.expiryDate.getD (now + 7 * msPerDay)
    image_url := d.imageUrl.getD ""
    status := FoodItemStatus.available }

/-- Model of createDonation (source lines 324-392). The whole body sits in a
single try/catch whose handler logs and re-throws, so any rejection — from the
Supabase create, the firebase mirror set, or the activity set — surfaces as an
error result. The firebase mirror record content (the input plus the Supabase
id and timestamps) is represented by its path. -/
def createDonation (pf : String → Option Int) (now : Nat) (env : CreateEnv)
    (donation : DonationInput) : CreateResult :=
  let supabaseData := createDonationInsert pf now donation
  match env.supabaseResult with
  | Except.error e =>
    { result := Except.error e, trace := [Effect.supabaseInsertFood supabaseData] }
  | Except.ok none =>
    { result := Except.error StoreErr.supabaseNullResult
      trace := [Effect.supabaseInsertFood supabaseData] }
  | Except.ok (some row) =>
    match env.mirrorWrite with
    | Except.error e =>
      { result := Except.error e
        trace := [Effect.supabaseInsertFood supabaseData,
                  Effect.firebaseSet ("donations/" ++ row.id)] }
    | Except.ok _ =>
      let entry : ActivityEntry :=
        { id := env.activityKey
          type := "donation_created"
          subjectId := row.id
          timestamp := now
          message := "New donation: " ++ donation.quantity ++ " " ++
            donation.unit ++ " of " ++ donation.foodType }
      match env.activityWrite with
      | Except.error e =>
        { result := Except.error e
          trace := [Effect.supabaseInsertFood supabaseData,
                    Effect.firebaseSet ("donations/" ++ row.id),
                    Effect.activityAppend entry] }
      | Except.ok _ =>
        { result := Except.ok row.id
          trace := [Effect.supabaseInsertFood supabaseData,
                    Effect.firebaseSet ("donations/" ++ row.id),
                    Effect.activityAppend entry] }

/-- The supabaseData row built by createRequirement (source lines 541-557):
needed_by defaults to now plus 7 days, serving_size is parseInt(servingSize)
with the `|| 0` NaN guard, status is the literal active. -/
def createRequirementInsert (pf : String → Option Int) (now : Nat)
    (r : RequirementInput) : RequestInsert :=
  { ngo_id := r.receiverId
    title := r.title
    food_type := r.foodType
    quantity := pf r.quantity
    unit := r.unit
    urgency := r.urgency
    description := r.description
    delivery_address := r.address
    delivery_latitude := r.lat
    delivery_longitude := r.lng
    needed_by := r.neededBy.getD (now + 7 * msPerDay)
    serving_size := jsOrZero (jsParseInt r.servingSize)
    status := RequestStatus.active }

/-- Model of createRequirement (source lines 534-605); the control flow is that
of createDonation: one outer try/catch that logs and re-throws, so a failure of
any of the three writes rejects the operation. -/
def createRequirement (pf : String → Option Int) (now : Nat) (env : CreateEnv)
    (requirement : RequirementInput) : CreateResult :=
  let supabaseData := createRequirementInsert pf now requirement
  match env.supabaseResult with
  | Except.error e =>
    { result := Except.error e, trace := [Effect.supabaseInsertRequest supabaseData] }
  | Except.ok none =>
    { result := Except.error StoreErr.supabaseNullResult
      trace := [Effect.supabaseInsertRequest supabaseData] }
  | Except.ok (some row) =>
    match env.mirrorWrite with
    | Except.error e =>
      { result := Except.error e
        trace := [Effect.supabaseInsertRequest supabaseData,
                  Effect.firebaseSet ("requirements/" ++ row.id)] }
    | Except.ok _ =>
      let entry : ActivityEntry :=
        { id := env.activityKey
          type := "requirement_created"
          subjectId := row.id
          timestamp := now
          message := "New request: " ++ requirement.quantity ++ " " ++
            requirement.unit ++ " of " ++ requirement.foodType ++ " (" ++
            requirement.urgency ++ " priority)" }
      match env.activityWrite with
      | Except.error e =>
        { result := Except.error e
          trace := [Effect.supabaseInsertRequest supabaseData,
                    Effect.firebaseSet ("requirements/" ++ row.id),
                    Effect.activityAppend entry] }
      | Except.ok _ =>
        { result := Except.ok row.id
          trace := [Effect.supabaseInsertRequest supabaseData,
                    Effect.firebaseSet ("requirements/" ++ row.id),
                    Effect.activityAppend entry] }

/-- The transactionData row built by createMatch (source lines 677-689). -/
def createMatchInsert (now : Nat) (m : MatchInput)
    (actualQuantity : Option Int) : TransactionInsert :=
  { donor_id := m.donorId
    ngo_id := m.receiverId
    food_item_id := m.donationId
    request_id := m.requirementId
    quantity_transferred := jsOrZero actualQuantity
    status := matchStatusToTransaction m.status
    pickup_time := now
    delivery_time := now
    match_score := m.matchScore
    distance_km := m.distance }

/-- Model of createMatch (source lines 671-732). Unlike the other creates, a
null Supabase result is not rejected: transactionId becomes the empty string
and every place that uses it falls back to the firebase push key through `||`.
The firebase mirror record is stored under the pushed key, not the Supabase id. -/
def createMatch (now : Nat) (env : MatchEnv) (m : MatchInput)
    (actualQuantity : Option Int) : CreateResult :=
  let transactionData := createMatchInsert now m actualQuantity
  match env.supabaseResult with
  | Except.error e =>
    { result := Except.error e
      trace := [Effect.supabaseInsertTransaction transactionData] }
  | Except.ok rowOpt =>
    let transactionId := match rowOpt with
      | some row => row.id
      | none => ""
    let returnId := jsOrStr transactionId env.matchKey
    match env.mirrorWrite with
    | Except.error e =>
      { result := Except.error e
        trace := [Effect.supabaseInsertTransaction transactionData,
                  Effect.firebaseSet ("matches/" ++ env.matchKey)] }
    | Except.ok _ =>
      let entry : ActivityEntry :=
        { id := env.activityKey
          type := "match_created"
          subjectId := returnId
          timestamp := now
          message := "Transaction completed (" ++ toString m.matchScore ++
            "% match, " ++ toString m.distance ++ "km distance)" }
      match env.activityWrite with
      | Except.error e =>
        { result := Except.error e
          trace := [Effect.supabaseInsertTransaction transactionData,
                    Effect.firebaseSet ("matches/" ++ env.matchKey),
                    Effect.activityAppend entry] }
      | Except.ok _ =>
        { result := Except.ok returnId
          trace := [Effect.supabaseInsertTransaction transactionData,
                    Effect.firebaseSet ("matches/" ++ env.matchKey),
                    Effect.activityAppend entry] }

/-- Model of updateDonationStatus (source lines 394-431): the Supabase status
update runs first and its failure rejects the operation; the firebase mirror
update sits in a nested try/catch whose handler only warns, so its outcome
never reaches the result. The update payload carries matchedWith and a
matchedAt timestamp exactly when matchedWith is present. -/
def updateDonationStatus (env : UpdateEnv) (donationId : String)
    (status : DonationStatus) (matchedWith : Option String) : UpdateResult :=
  let supabaseStatus := donationStatusToSupabase status
  match env.supabaseWrite with
  | Except.error e =>
    { result := Except.error e
      trace := [Effect.supabaseUpdateFoodStatus donationId supabaseStatus] }
  | Except.ok _ =>
    { result := Except.ok ()
      trace := [Effect.supabaseUpdateFoodStatus donationId supabaseStatus,
                Effect.firebaseUpdate ("donations/" ++ donationId) matchedWith.isSome] }

/-- Model of updateRequirementStatus (source lines 433-469); same shape as
updateDonationStatus with the requests table and requirements path. -/
def updateRequirementStatus (env : UpdateEnv) (requirementId : String)
    (status : RequirementStatus) (matchedWith : Option String) : UpdateResult :=
  let supabaseStatus := requirementStatusToSupabase status
  match env.supabaseWrite with
  | Except.error e =>
    { result := Except.error e
      trace := [Effect.supabaseUpdateRequestStatus requirementId supabaseStatus] }
  | Except.ok _ =>
    { result := Except.ok ()
      trace := [Effect.supabaseUpdateRequestStatus requirementId supabaseStatus,
                Effect.firebaseUpdate ("requirements/" ++ requirementId) matchedWith.isSome] }

/-- Model of updateMatchStatus (source lines 734-750). When the sync database
check fails the in-memory mockMatches entry is mutated and nothing is stored;
otherwise the only store call is the firebase update of the matches path —
there is no Supabase call in this function, and no try/catch, so a firebase
rejection (the env argument) escapes. -/
def updateMatchStatus (env : Except StoreErr Unit) (databaseAvailable : Bool)
    (matchId : String) (status : MatchStatus) : UpdateResult :=
  if !databaseAvailable then
    { result := Except.ok (), trace := [Effect.mockMutation] }
  else
    { result := env, trace := [Effect.firebaseUpdate ("matches/" ++ matchId) false] }

/-- A food_items row as read back from Supabase (source converter input,
lines 480-501). -/
structure FoodItemRow where
  id : String
  donor_id : String
  food_type : String
  quantity : Int
  unit : String
  description : String
  pickup_address : String
  pickup_latitude : Int
  pickup_longitude : Int
  pickup_time : Nat
  expiry_date : Nat
  image_url : String
  status : FoodItemStatus
  created_at : Nat
  updated_at : Nat
deriving DecidableEq

/-- The FoodDonation record delivered to listener callbacks, location flattened. -/
structure FoodDonationView where
  id : String
  donorId : String
  donorName : String
  foodType : String
  quantity : String
  unit : String
  description : String
  address : String
  lat : Int
  lng : Int
  pickupTime : Nat
  expiryDate : Nat
  imageUrl : Option String
  status : DonationStatus
  createdAt : Nat
  updatedAt : Nat
deriving DecidableEq

/-- Model of convertSupabaseToFoodDonation (source lines 480-501, repeated
verbatim at 760-781): donorName is the constant Donor, quantity is rendered
back to a string, an empty image_url becomes undefined through `||`, and the
status goes through the catch-all ternary chain. -/
def convertSupabaseToFoodDonation (item : FoodItemRow) : FoodDonationView :=
  { id := item.id
    donorId := item.donor_id
    donorName := "Donor"
    foodType := item.food_type
    quantity := toString item.quantity
    unit := item.unit
    description := item.description
    address := item.pickup_address
    lat := item.pickup_latitude
    lng := item.pickup_longitude
    pickupTime := item.pickup_time
    expiryDate := item.expiry_date
    imageUrl := if item.image_url == "" then none else some item.image_url
    status := supabaseStatusToDonation item.status
    createdAt := item.created_at
    updatedAt := item.updated_at }

/-- A requests row as read back from Supabase (source converter input,
lines 616-638); serving_size is nullable. -/
structure RequestRow where
  id : String
  ngo_id : String
  title : String
  food_type : String
  quantity : Int
  unit : String
  urgency : String
  description : String
  delivery_address : String
  delivery_latitude : Int
  delivery_longitude : Int
  needed_by : Nat
  serving_size : Option Int
  status : RequestStatus
  created_at : Nat
  updated_at : Nat
deriving DecidableEq

/-- The FoodRequirement record delivered to listener callbacks, location
flattened. -/
structure FoodRequirementView where
  id : String
  receiverId : String
  receiverName : String
  organizationName : String
  title : String
  foodType : String
  quantity : String
  unit : String
  urgency : String
  description : String
  address : String
  lat : Int
  lng : Int
  neededBy : Nat
  servingSize : String
  status : RequirementStatus
  createdAt : Nat
  updatedAt : Nat
deriving DecidableEq

/-- Model of convertSupabaseToRequirement (source lines 616-638):
organizationName is title with the Organization fallback, servingSize is the
optional-chained toString with fallback 0, the status goes through the
ternary chain ending in fulfilled. -/
def convertSupabaseToRequirement (item : RequestRow) : FoodRequirementView :=
  { id := item.id
    receiverId := item.ngo_id
    receiverName := "Receiver"
    organizationName := jsOrStr item.title "Organization"
    title := item.title
    foodType := item.food_type
    quantity := toString item.quantity
    unit := item.unit
    urgency := item.urgency
    description := item.description
    address := item.delivery_address
    lat := item.delivery_latitude
    lng := item.delivery_longitude
    neededBy := item.needed_by
    servingSize := match item.serving_size with
      | none => "0"
      | some v => jsOrStr (toString v) "0"
    status := supabaseStatusToRequirement item.status
    createdAt := item.created_at
    updatedAt := item.updated_at }

/-- The inline converter of listenToActiveRequirements (source lines 832-853),
identical to convertSupabaseToRequirement except that the row status is passed
through unchanged instead of going through the ternary chain. -/
def convertSupabaseToRequirementRaw (item : RequestRow) : FoodRequirementView :=
  { convertSupabaseToRequirement item with
      status := requestStatusAsRequirement item.status }

/-- Whether the function handed back its real channel unsubscribe or the no-op
arrow function of the error path. -/
inductive UnsubKind
  | real
  | noop
deriving DecidableEq

/-- Observable outcome of setting up one subscription entry point: the ordered
callback invocations performed during setup, and which unsubscribe function was
returned. -/
structure ListenResult (α : Type) where
  callbackCalls : List (List α)
  unsub : UnsubKind
deriving DecidableEq

/-- Model of getDonationsByDonor (source lines 471-531): the initial Supabase
query result (error models a rejected query) is converted and delivered to the
callback, then a channel is registered and its unsubscribe returned; the
catch branch performs no callback invocation and returns the no-op function. -/
def getDonationsByDonor (initialRows : Except StoreErr (List FoodItemRow))
    (donorId : String) : ListenResult FoodDonationView :=
  match initialRows with
  | Except.error _ => { callbackCalls := [], unsub := UnsubKind.noop }
  | Except.ok rows =>
    { callbackCalls := [rows.map convertSupabaseToFoodDonation]
      unsub := UnsubKind.real }

/-- Model of getRequirementsByReceiver (source lines 607-668); same shape as
getDonationsByDonor. -/
def getRequirementsByReceiver (initialRows : Except StoreErr (List RequestRow))
    (receiverId : String) : ListenResult FoodRequirementView :=
  match initialRows with
  | Except.error _ => { callbackCalls := [], unsub := UnsubKind.noop }
  | Except.ok rows =>
    { callbackCalls := [rows.map convertSupabaseToRequirement]
      unsub := UnsubKind.real }

/-- Model of listenToAvailableDonations (source lines 756-826): fetchAndCallback
delivers the converted rows, or the empty list on a query error (both the error
result property and a thrown error lead to callback([])); the subscription is
set up outside any try/catch and the real unsubscribe is always returned. -/
def listenToAvailableDonations (initialRows : Except StoreErr (List FoodItemRow)) :
    ListenResult FoodDonationView :=
  match initialRows with
  | Except.error _ => { callbackCalls := [[]], unsub := UnsubKind.real }
  | Except.ok rows =>
    { callbackCalls := [rows.map convertSupabaseToFoodDonation]
      unsub := UnsubKind.real }

/-- Model of listenToActiveRequirements (source lines 828-898); same shape as
listenToAvailableDonations with the raw-status converter. -/
def listenToActiveRequirements (initialRows : Except StoreErr (List RequestRow)) :
    ListenResult FoodRequirementView :=
  match initialRows with
  | Except.error _ => { callbackCalls := [[]], unsub := UnsubKind.real }
  | Except.ok rows =>
    { callbackCalls := [rows.map convertSupabaseToRequirementRaw]
      unsub := UnsubKind.real }

/-- Runs the registered mock-mode listeners on a data array in order, collecting
each outcome. A listener is a callback that either returns or throws
(Except.error). When catchErrors is true — the try/catch inside the forEach
body of notify, source lines 265-271 — a throwing listener is recorded and the
remaining listeners still run; without it the first throw would abort the loop. -/
def runListeners {α ε : Type} (catchErrors : Bool) :
    List (α → Except ε Unit) → α → List (Except ε Unit)
  | [], _ => []
  | l :: ls, d =>
    match l d with
    | Except.ok u => Except.ok u :: runListeners catchErrors ls d
    | Except.error e =>
      if catchErrors then Except.error e :: runListeners catchErrors ls d
      else [Except.error e]

/-- Model of notify (source lines 263-272): every listener is called with the
data array, each call wrapped in the error-swallowing try/catch. -/
def notify {α ε : Type} (listeners : List (α → Except ε Unit)) (data : α) :
    List (Except ε Unit) :=
  runListeners true listeners data

/-- The process-wide analytics cache cell: analyticsCache and
analyticsCacheTime (source lines 901-902), generic in the dataset type. -/
structure AnalyticsState (α : Type) where
  cache : Option α
  cacheTime : Nat
deriving DecidableEq

/-- Store outcomes for one analytics refresh: the connectivity probe of
getDatabaseAvailability (error models the catch branch), the three-way parallel
read (error models a rejected Promise.all), and the fixed mock dataset used as
fallback. The dataset assembly from the three snapshots is abstracted into the
dataset type. -/
structure AnalyticsEnv (α : Type) where
  probe : Except StoreErr Bool
  reads : Except StoreErr α
  mockData : α

/-- CACHE_DURATION (source line 903). -/
def CACHE_WINDOW : Nat := 30000

/-- The availability value computed by getDatabaseAvailability (source lines
299-310): the probed connected flag, with false on a thrown probe. -/
def analyticsProbeValue : Except StoreErr Bool → Bool
  | Except.ok b => b
  | Except.error _ => false

/-- The cache-miss path of getAnalyticsData (source lines 911-960): probe the
real-time store; on an unavailable probe return and cache the mock dataset; else
issue the three reads, falling back to the mock dataset if they reject; either
way the cache cell is overwritten and stamped with the completion time. -/
def fetchAnalyticsData {α : Type} (env : AnalyticsEnv α) (now : Nat) :
    α × AnalyticsState α × List Effect :=
  if analyticsProbeValue env.probe then
    match env.reads with
    | Except.ok d =>
      (d, { cache := some d, cacheTime := now },
        [Effect.firebaseGet ".info/connected", Effect.firebaseGet "donations",
         Effect.firebaseGet "requirements", Effect.firebaseGet "matches"])
    | Except.error _ =>
      (env.mockData, { cache := some env.mockData, cacheTime := now },
        [Effect.firebaseGet ".info/connected", Effect.firebaseGet "donations",
         Effect.firebaseGet "requirements", Effect.firebaseGet "matches"])
  else
    (env.mockData, { cache := some env.mockData, cacheTime := now },
      [Effect.firebaseGet ".info/connected"])

/-- Model of getAnalyticsData (source lines 905-961): when the cache cell holds
data and now minus the stamp is under CACHE_DURATION the cached object itself is
returned with no store call and no state change; otherwise the refresh path
runs. Nat subtraction truncates at 0, which agrees with the JS signed
comparison for every now and stamp. -/
def getAnalyticsData {α : Type} (env : AnalyticsEnv α) (now : Nat)
    (s : AnalyticsState α) : α × AnalyticsState α × List Effect :=
  match s.cache with
  | some d =>
    if now - s.cacheTime < CACHE_WINDOW then (d, s, [])
    else fetchAnalyticsData env now
  | none => fetchAnalyticsData env now

/-- A parseFloat oracle that parses nothing; claims never depend on parsed
quantity values. -/
def pf0 : String → Option Int := fun _ => none

/-- Concrete donation input with omitted pickupTime and expiryDate. -/
def donationInputA : DonationInput :=
  { donorId := "d1"
    donorName := "Alice"
    foodType := "Rice"
    quantity := "50"
    unit := "kg"
    description := "bags of rice"
    address := "123 Main St"
    lat := 37
    lng := -122
    pickupTime := none
    expiryDate := none
    imageUrl := none }

/-- Concrete requirement input whose servingSize does not parse and whose
neededBy is omitted. -/
def requirementInputNan : RequirementInput :=
  { receiverId := "r1"
    receiverName := "Bob"
    organizationName := "Shelter"
    title := "Dinner"
    foodType := "Meals"
    quantity := "30"
    unit := "portions"
    urgency := "high"
    description := "evening service"
    address := "55 Harbor Rd"
    lat := 37
    lng := -122
    neededBy := none
    servingSize := "abc" }

/-- Concrete match input. -/
def matchInputA : MatchInput :=
  { donationId := "don1"
    requirementId := "req1"
    donorId := "d1"
    receiverId := "r1"
    status := MatchStatus.pending
    distance := 2
    matchScore := 90 }

/-- A Supabase row assigned by the relational store. -/
def rowA : SupabaseRow := { id := "sb-1", created_at := 1000 }

/-- A second Supabase row. -/
def rowB : SupabaseRow := { id := "sb-2", created_at := 1000 }

/-- Environment where every store call succeeds and the create returns rowA. -/
def envAllOk : CreateEnv :=
  { supabaseResult := Except.ok (some rowA)
    mirrorWrite := Except.ok ()
    activityKey := "act-1"
    activityWrite := Except.ok () }

/-- Environment where every store call succeeds and the create returns rowB. -/
def envAllOkB : CreateEnv :=
  { supabaseResult := Except.ok (some rowB)
    mirrorWrite := Except.ok ()
    activityKey := "act-2"
    activityWrite := Except.ok () }

/-- Environment where the relational create succeeds but the firebase mirror
set rejects. -/
def envMirrorFail : CreateEnv :=
  { supabaseResult := Except.ok (some rowA)
    mirrorWrite := Except.error (StoreErr.storeRejected 7)
    activityKey := "act-1"
    activityWrite := Except.ok () }

/-- Match environment where the relational create succeeds but the firebase
mirror set rejects. -/
def matchEnvMirrorFail : MatchEnv :=
  { supabaseResult := Except.ok (some rowA)
    matchKey := "fbk"
    mirrorWrite := Except.error (StoreErr.storeRejected 7)
    activityKey := "act-1"
    activityWrite := Except.ok () }

/-- Match environment where the relational create resolves with a null row and
every firebase write succeeds. -/
def matchEnvNullRow : MatchEnv :=
  { supabaseResult := Except.ok none
    matchKey := "fb-key-1"
    mirrorWrite := Except.ok ()
    activityKey := "act-1"
    activityWrite := Except.ok () }

/-- Match environment where everything succeeds and the create returns rowA. -/
def matchEnvAllOk : MatchEnv :=
  { supabaseResult := Except.ok (some rowA)
    matchKey := "fbk"
    mirrorWrite := Except.ok ()
    activityKey := "act-1"
    activityWrite := Except.ok () }

/-- Update environment where the Supabase write succeeds and the firebase
mirror update rejects. -/
def updateEnvFbFail : UpdateEnv :=
  { supabaseWrite := Except.ok ()
    firebaseWrite := Except.error (StoreErr.storeRejected 9) }

/-- Analytics environment over Nat datasets: probe connected, reads deliver 42,
mock dataset is 0. -/
def analyticsEnvA : AnalyticsEnv Nat :=
  { probe := Except.ok true, reads := Except.ok 42, mockData := 0 }

/-- Analytics environment whose probe rejects; mock dataset is 7. -/
def analyticsEnvProbeFail : AnalyticsEnv Nat :=
  { probe := Except.error (StoreErr.storeRejected 3)
    reads := Except.ok 42
    mockData := 7 }

/-- Cold analytics cache. -/
def analyticsStateCold : AnalyticsState Nat := { cache := none, cacheTime := 0 }

/-- Warm analytics cache holding 42, stamped at time 100. -/
def analyticsStateWarm : AnalyticsState Nat := { cache := some 42, cacheTime := 100 }

/-- True when a create operation resolved (the promise fulfilled). -/
def isOkResult : Except StoreErr String → Bool
  | Except.ok _ => true
  | Except.error _ => false

/-- A nonempty JS string is left unchanged by the `||` fallback. -/
theorem jsOrStr_of_ne (s d : String) (h : s ≠ "") : jsOrStr s d = s := by
  simp [jsOrStr, h]

/-- Claim C5: the status translation between the canonical and mirror
vocabularies round-trips in both directions on both status domains — the maps
of updateDonationStatus and convertSupabaseToFoodDonation are mutually inverse
bijections of the four-element donation sets, and likewise the maps of
updateRequirementStatus and convertSupabaseToRequirement on the three-element
requirement sets. -/
theorem status_translation_round_trips :
    (∀ s : DonationStatus, supabaseStatusToDonation (donationStatusToSupabase s) = s) ∧
    (∀ s : FoodItemStatus, donationStatusToSupabase (supabaseStatusToDonation s) = s) ∧
    (∀ s : RequirementStatus,
      supabaseStatusToRequirement (requirementStatusToSupabase s) = s) ∧
    (∀ s : RequestStatus,
      requirementStatusToSupabase (supabaseStatusToRequirement s) = s) := by
  refine ⟨?_, ?_, ?_, ?_⟩ <;> intro s <;> cases s <;> rfl

/-- Claim C1 (counterexample): with the relational write succeeding and the
mirror write rejecting, createDonation rejects with the mirror error instead of
resolving with the relational identity sb-1 — the single outer try/catch of the
create operations logs and re-throws, so the exception escapes to the caller. -/
theorem createDonation_mirror_failure_escapes :
    (createDonation pf0 0 envMirrorFail donationInputA).result =
      Except.error (StoreErr.storeRejected 7) ∧
    isOkResult (createDonation pf0 0 envMirrorFail donationInputA).result = false :=
  ⟨rfl, rfl⟩

/-- Claim C1 (amended): after a successful relational write, a failure of the
mirror write or the activity-feed write makes createDonation, createRequirement
and createMatch reject with that failure; only the status-update operations
catch and swallow the mirror failure, resolving whenever the relational update
succeeded. -/
theorem create_mirror_failure_propagates_update_swallows :
    ∀ (pf : String → Option Int) (now : Nat) (env : CreateEnv) (d : DonationInput)
      (r : RequirementInput) (menv : MatchEnv) (m : MatchInput) (aq : Option Int)
      (uenv : UpdateEnv) (e : StoreErr) (row : SupabaseRow) (id0 : String)
      (ds : DonationStatus) (rs : RequirementStatus) (mw : Option String),
      (env.supabaseResult = Except.ok (some row) → env.mirrorWrite = Except.error e →
        (createDonation pf now env d).result = Except.error e) ∧
      (env.supabaseResult = Except.ok (some row) → env.mirrorWrite = Except.ok () →
        env.activityWrite = Except.error e →
        (createDonation pf now env d).result = Except.error e) ∧
      (env.supabaseResult = Except.ok (some row) → env.mirrorWrite = Except.error e →
        (createRequirement pf now env r).result = Except.error e) ∧
      (menv.supabaseResult = Except.ok (some row) → menv.mirrorWrite = Except.error e →
        (createMatch now menv m aq).result = Except.error e) ∧
      (uenv.supabaseWrite = Except.ok () →
        (updateDonationStatus uenv id0 ds mw).result = Except.ok ()) ∧
      (uenv.supabaseWrite = Except.ok () →
        (updateRequirementStatus uenv id0 rs mw).result = Except.ok ()) := by
  intro pf now env d r menv m aq uenv e row id0 ds rs mw
  refine ⟨?_, ?_, ?_, ?_, ?_, ?_⟩
  · intro h1 h2
    simp [createDonation, h1, h2]
  · intro h1 h2 h3
    simp [createDonation, h1, h2, h3]
  · intro h1 h2
    simp [createRequirement, h1, h2]
  · intro h1 h2
    simp [createMatch, h1, h2]
  · intro h1
    simp [updateDonationStatus, h1]
  · intro h1
    simp [updateRequirementStatus, h1]

/-- Claim C1 (witness): the amended theorem applied at a concrete mirror
failure and a concrete swallowed firebase failure. -/
theorem create_mirror_failure_propagates_update_swallows_witness :
    (createDonation pf0 0 envMirrorFail donationInputA).result =
      Except.error (StoreErr.storeRejected 7) ∧
    (updateDonationStatus updateEnvFbFail "sb-1" DonationStatus.matched none).result =
      Except.ok () := by
  have h := create_mirror_failure_propagates_update_swallows pf0 0 envMirrorFail
    donationInputA requirementInputNan matchEnvMirrorFail matchInputA none
    updateEnvFbFail (StoreErr.storeRejected 7) rowA "sb-1" DonationStatus.matched
    RequirementStatus.matched none
  exact ⟨h.1 rfl rfl, h.2.2.2.2.1 rfl⟩

/-- Claim C2 (counterexample): updateMatchStatus with the database available
performs exactly one store call, the firebase mirror update of the matches
path — no relational-store write occurs, refuting that it updates the
relational store before or in addition to its mirror update. -/
theorem updateMatchStatus_no_relational_write :
    (updateMatchStatus (Except.ok ()) true "m1" MatchStatus.confirmed).trace =
      [Effect.firebaseUpdate "matches/m1" false] ∧
    ((updateMatchStatus (Except.ok ()) true "m1" MatchStatus.confirmed).trace.all
      fun e => !(isRelationalWrite e)) = true :=
  ⟨rfl, rfl⟩

/-- Claim C2 (amended): the three create operations and the donation and
requirement status updates always issue their relational-store write first,
and the donation status update mirrors to the real-time store afterwards when
the relational write succeeds; updateMatchStatus alone never writes to the
relational store, touching only the firebase mirror (or the in-memory mock
data when the database is unavailable). -/
theorem mutating_operations_relational_first :
    ∀ (pf : String → Option Int) (now : Nat) (env : CreateEnv) (d : DonationInput)
      (renv : CreateEnv) (r : RequirementInput) (menv : MatchEnv) (m : MatchInput)
      (aq : Option Int) (uenv : UpdateEnv) (id0 : String) (ds : DonationStatus)
      (rs : RequirementStatus) (mw : Option String) (fe : Except StoreErr Unit)
      (db : Bool) (mid : String) (ms : MatchStatus),
      startsWithRelational (createDonation pf now env d).trace = true ∧
      startsWithRelational (createRequirement pf now renv r).trace = true ∧
      startsWithRelational (createMatch now menv m aq).trace = true ∧
      startsWithRelational (updateDonationStatus uenv id0 ds mw).trace = true ∧
      startsWithRelational (updateRequirementStatus uenv id0 rs mw).trace = true ∧
      (uenv.supabaseWrite = Except.ok () →
        (updateDonationStatus uenv id0 ds mw).trace =
          [Effect.supabaseUpdateFoodStatus id0 (donationStatusToSupabase ds),
           Effect.firebaseUpdate ("donations/" ++ id0) mw.isSome]) ∧
      ((updateMatchStatus fe db mid ms).trace.all
        fun e => !(isRelationalWrite e)) = true := by
  intro pf now env d renv r menv m aq uenv id0 ds rs mw fe db mid ms
  refine ⟨?_, ?_, ?_, ?_, ?_, ?_, ?_⟩
  · rcases env with ⟨sres, mres, ak, ares⟩
    cases sres with
    | error e => rfl
    | ok o =>
      cases o with
      | none => rfl
      | some row =>
        cases mres with
        | error e => rfl
        | ok u =>
          cases ares with
          | error e2 => rfl
          | ok u2 => rfl
  · rcases renv with ⟨sres, mres, ak, ares⟩
    cases sres with
    | error e => rfl
    | ok o =>
      cases o with
      | none => rfl
      | some row =>
        cases mres with
        | error e => rfl
        | ok u =>
          cases ares with
          | error e2 => rfl
          | ok u2 => rfl
  · rcases menv with ⟨sres, mk, mres, ak, ares⟩
    cases sres with
    | error e => rfl
    | ok o =>
      cases mres with
      | error e => rfl
      | ok u =>
        cases ares with
        | error e2 => rfl
        | ok u2 => rfl
  · rcases uenv with ⟨sres, fres⟩
    cases sres with
    | error e => rfl
    | ok u => rfl
  · rcases uenv with ⟨sres, fres⟩
    cases sres with
    | error e => rfl
    | ok u => rfl
  · intro h1
    simp [updateDonationStatus, h1]
  · cases db with
    | false => rfl
    | true => rfl

/-- Claim C2 (witness): the amended theorem applied at a concrete environment,
showing the relational-first trace shape of the creates and the full
relational-then-mirror trace of a donation status update. -/
theorem mutating_operations_relational_first_witness :
    startsWithRelational (createDonation pf0 0 envAllOk donationInputA).trace = true ∧
    (updateDonationStatus updateEnvFbFail "sb-1" DonationStatus.matched none).trace =
      [Effect.supabaseUpdateFoodStatus "sb-1" FoodItemStatus.reserved,
       Effect.firebaseUpdate "donations/sb-1" false] := by
  have h := mutating_operations_relational_first pf0 0 envAllOk donationInputA envAllOk
    requirementInputNan matchEnvAllOk matchInputA none updateEnvFbFail "sb-1"
    DonationStatus.matched RequirementStatus.matched none (Except.ok ()) true "m1"
    MatchStatus.confirmed
  exact ⟨h.1, h.2.2.2.2.2.1 rfl⟩

/-- Claim C3 (counterexample): with both configuration values equal to the
placeholder sentinels, isDatabaseAvailable is false, yet getAnalyticsData on a
cold cache still contacts the real-time store — its trace contains the
connectivity probe — and returns the freshly read data 42, not the placeholder
dataset 0: the configuration check is never consulted by the read operations,
so missing or placeholder configuration does not route reads to the placeholder
dataset and does not prevent network calls. -/
theorem placeholder_config_still_probes_network :
    isDatabaseAvailable
      { apiKey := some "demo-api-key", projectId := some "demo-project" } = false ∧
    (getAnalyticsData analyticsEnvA 0 analyticsStateCold).1 = 42 ∧
    Effect.firebaseGet ".info/connected" ∈
      (getAnalyticsData analyticsEnvA 0 analyticsStateCold).2.2 := by
  refine ⟨by decide, rfl, by decide⟩

/-- Claim C3 (amended): isDatabaseAvailable classifies absent or sentinel
configuration values as unavailable, but no read or mirror operation consults
it; the placeholder-dataset fallback of getAnalyticsData is driven by the
runtime connectivity probe, which is itself a network call issued regardless of
configuration — when the probe fails, the mock dataset is returned and cached
after that single store call. -/
theorem config_flag_unused_probe_drives_fallback :
    ∀ (α : Type) (env : AnalyticsEnv α) (now : Nat) (pid ak : Option String),
      isDatabaseAvailable { apiKey := some "demo-api-key", projectId := pid } = false ∧
      isDatabaseAvailable { apiKey := none, projectId := pid } = false ∧
      isDatabaseAvailable { apiKey := ak, projectId := some "demo-project" } = false ∧
      (analyticsProbeValue env.probe = false →
        getAnalyticsData env now { cache := none, cacheTime := 0 } =
          (env.mockData, { cache := some env.mockData, cacheTime := now },
            [Effect.firebaseGet ".info/connected"])) := by
  intro α env now pid ak
  refine ⟨?_, ?_, ?_, ?_⟩
  · simp [isDatabaseAvailable, truthyStr]
  · simp [isDatabaseAvailable, truthyStr]
  · simp [isDatabaseAvailable]
  · intro h
    simp [getAnalyticsData, fetchAnalyticsData, h]

/-- Claim C3 (witness): the amended theorem applied at a rejecting probe. -/
theorem config_flag_unused_probe_drives_fallback_witness :
    getAnalyticsData analyticsEnvProbeFail 100 { cache := none, cacheTime := 0 } =
      (7, { cache := some 7, cacheTime := 100 },
        [Effect.firebaseGet ".info/connected"]) := by
  have h := config_flag_unused_probe_drives_fallback Nat analyticsEnvProbeFail 100
    none none
  exact h.2.2.2 rfl

/-- Claim C4 (counterexample): when the relational create of createMatch
resolves with a null row, the operation still resolves — with the firebase push
key fb-key-1, a string assigned by the mirror store, while the relational store
assigned no identity at all. -/
theorem createMatch_resolves_with_mirror_key :
    (createMatch 0 matchEnvNullRow matchInputA none).result = Except.ok "fb-key-1" ∧
    matchEnvNullRow.supabaseResult = Except.ok none :=
  ⟨rfl, rfl⟩

/-- Claim C4 (amended): createDonation and createRequirement always resolve
with the relational-store identity; createMatch resolves with the relational
identity whenever the relational create returned a row with a nonempty id, and
otherwise falls back to the mirror push key. -/
theorem create_operations_return_relational_id :
    ∀ (pf : String → Option Int) (now : Nat) (env : CreateEnv) (d : DonationInput)
      (r : RequirementInput) (menv : MatchEnv) (m : MatchInput) (aq : Option Int)
      (row : SupabaseRow),
      (env.supabaseResult = Except.ok (some row) → env.mirrorWrite = Except.ok () →
        env.activityWrite = Except.ok () →
        (createDonation pf now env d).result = Except.ok row.id) ∧
      (env.supabaseResult = Except.ok (some row) → env.mirrorWrite = Except.ok () →
        env.activityWrite = Except.ok () →
        (createRequirement pf now env r).result = Except.ok row.id) ∧
      (menv.supabaseResult = Except.ok (some row) → row.id ≠ "" →
        menv.mirrorWrite = Except.ok () → menv.activityWrite = Except.ok () →
        (createMatch now menv m aq).result = Except.ok row.id) := by
  intro pf now env d r menv m aq row
  refine ⟨?_, ?_, ?_⟩
  · intro h1 h2 h3
    simp [createDonation, h1, h2, h3]
  · intro h1 h2 h3
    simp [createRequirement, h1, h2, h3]
  · intro h1 hne h2 h3
    simp [createMatch, h1, h2, h3, jsOrStr_of_ne _ _ hne]

/-- Claim C4 (witness): the amended theorem applied at environments whose
relational creates return rowA. -/
theorem create_operations_return_relational_id_witness :
    (createDonation pf0 0 envAllOk donationInputA).result = Except.ok "sb-1" ∧
    (createMatch 0 matchEnvAllOk matchInputA none).result = Except.ok "sb-1" := by
  have h := create_operations_return_relational_id pf0 0 envAllOk donationInputA
    requirementInputNan matchEnvAllOk matchInputA none rowA
  exact ⟨h.1 rfl rfl rfl, h.2.2 rfl (by decide) rfl rfl⟩

/-- Claim C6 (counterexample): when the initial query of getDonationsByDonor
fails, the catch branch returns the no-op unsubscribe but performs no callback
invocation at all — in particular the callback is never invoked with the empty
sequence. -/
theorem getDonationsByDonor_failure_no_callback :
    getDonationsByDonor (Except.error (StoreErr.storeRejected 3)) "d1" =
      { callbackCalls := [], unsub := UnsubKind.noop } ∧
    ¬ (([] : List FoodDonationView) ∈
        (getDonationsByDonor (Except.error (StoreErr.storeRejected 3)) "d1").callbackCalls) := by
  refine ⟨rfl, by decide⟩

/-- Claim C6 (amended): on an initial-query failure, getDonationsByDonor and
getRequirementsByReceiver return the no-op unsubscribe without invoking the
callback, while listenToAvailableDonations and listenToActiveRequirements
invoke the callback once with the empty sequence and return their ordinary
channel unsubscribe. -/
theorem listener_setup_failure_behavior :
    ∀ (e : StoreErr) (did rid : String) (rowsD : Except StoreErr (List FoodItemRow))
      (rowsR : Except StoreErr (List RequestRow)),
      (rowsD = Except.error e →
        getDonationsByDonor rowsD did =
          { callbackCalls := [], unsub := UnsubKind.noop }) ∧
      (rowsR = Except.error e →
        getRequirementsByReceiver rowsR rid =
          { callbackCalls := [], unsub := UnsubKind.noop }) ∧
      (rowsD = Except.error e →
        listenToAvailableDonations rowsD =
          { callbackCalls := [[]], unsub := UnsubKind.real }) ∧
      (rowsR = Except.error e →
        listenToActiveRequirements rowsR =
          { callbackCalls := [[]], unsub := UnsubKind.real }) := by
  intro e did rid rowsD rowsR
  refine ⟨?_, ?_, ?_, ?_⟩ <;> intro h <;>
    simp [getDonationsByDonor, getRequirementsByReceiver,
      listenToAvailableDonations, listenToActiveRequirements, h]

/-- Claim C6 (witness): the amended theorem applied at a concrete failing
query. -/
theorem listener_setup_failure_behavior_witness :
    getDonationsByDonor (Except.error (StoreErr.storeRejected 4)) "d2" =
      { callbackCalls := [], unsub := UnsubKind.noop } ∧
    listenToAvailableDonations (Except.error (StoreErr.storeRejected 4)) =
      { callbackCalls := [[]], unsub := UnsubKind.real } := by
  have h := listener_setup_failure_behavior (StoreErr.storeRejected 4) "d2" "r2"
    (Except.error (StoreErr.storeRejected 4)) (Except.error (StoreErr.storeRejected 4))
  exact ⟨h.1 rfl, h.2.2.1 rfl⟩

/-- Claim C7: an omitted pickupTime is stored as call-time now, an omitted
expiryDate as now plus 7 days, an omitted neededBy as now plus 7 days; and a
createDonation run that resolves appended exactly one activity-feed entry of
type donation_created. -/
theorem create_temporal_defaults_and_single_activity :
    ∀ (pf : String → Option Int) (now : Nat) (env : CreateEnv) (d : DonationInput)
      (r : RequirementInput),
      (d.pickupTime = none → (createDonationInsert pf now d).pickup_time = now) ∧
      (d.expiryDate = none →
        (createDonationInsert pf now d).expiry_date = now + 7 * msPerDay) ∧
      (r.neededBy = none →
        (createRequirementInsert pf now r).needed_by = now + 7 * msPerDay) ∧
      (isOkResult (createDonation pf now env d).result = true →
        donationCreatedCount (createDonation pf now env d).trace = 1) := by
  intro pf now env d r
  refine ⟨?_, ?_, ?_, ?_⟩
  · intro h
    simp [createDonationInsert, h]
  · intro h
    simp [createDonationInsert, h]
  · intro h
    simp [createRequirementInsert, h]
  · intro h
    rcases env with ⟨sres, mres, ak, ares⟩
    cases sres with
    | error e => simp [createDonation, isOkResult] at h
    | ok o =>
      cases o with
      | none => simp [createDonation, isOkResult] at h
      | some row =>
        cases mres with
        | error e => simp [createDonation, isOkResult] at h
        | ok u =>
          cases ares with
          | error e2 => simp [createDonation, isOkResult] at h
          | ok u2 => rfl

/-- Claim C7 (witness): the theorem applied at call time 5 with both temporal
fields omitted and all stores succeeding. -/
theorem create_temporal_defaults_and_single_activity_witness :
    (createDonationInsert pf0 5 donationInputA).pickup_time = 5 ∧
    (createDonationInsert pf0 5 donationInputA).expiry_date = 5 + 7 * msPerDay ∧
    (createRequirementInsert pf0 5 requirementInputNan).needed_by = 5 + 7 * msPerDay ∧
    donationCreatedCount (createDonation pf0 5 envAllOk donationInputA).trace = 1 := by
  have h := create_temporal_defaults_and_single_activity pf0 5 envAllOk donationInputA
    requirementInputNan
  exact ⟨h.1 rfl, h.2.1 rfl, h.2.2.1 rfl, h.2.2.2 rfl⟩

/-- Claim C8: a call hitting a cache stamped less than 30 seconds earlier
returns the cached object itself, issues no store call and leaves the cache
cell untouched; a call at or past the 30-second boundary runs the refresh path,
which contacts the store (the probe appears in its trace), re-stamps the cache
with the call time and stores exactly the returned object. -/
theorem getAnalyticsData_cache_behavior :
    ∀ (α : Type) (env : AnalyticsEnv α) (now : Nat) (s : AnalyticsState α) (d : α),
      (s.cache = some d → now - s.cacheTime < CACHE_WINDOW →
        getAnalyticsData env now s = (d, s, [])) ∧
      (s.cache = some d → CACHE_WINDOW ≤ now - s.cacheTime →
        (getAnalyticsData env now s).2.1.cacheTime = now ∧
        (getAnalyticsData env now s).2.1.cache = some (getAnalyticsData env now s).1 ∧
        Effect.firebaseGet ".info/connected" ∈ (getAnalyticsData env now s).2.2) := by
  intro α env now s d
  constructor
  · intro h1 h2
    simp [getAnalyticsData, h1, h2]
  · intro h1 h2
    have hnot : ¬ (now - s.cacheTime < CACHE_WINDOW) := Nat.not_lt.mpr h2
    simp only [getAnalyticsData, h1, if_neg hnot]
    cases hp : analyticsProbeValue env.probe with
    | false => simp [fetchAnalyticsData, hp]
    | true =>
      cases hr : env.reads with
      | ok dd => simp [fetchAnalyticsData, hp, hr]
      | error ee => simp [fetchAnalyticsData, hp, hr]

/-- Claim C8 (witness): the theorem applied at a warm cache stamped at 100 —
a call at 200 returns the cached 42 with no store call, a call at 40000
re-stamps the cache. -/
theorem getAnalyticsData_cache_behavior_witness :
    getAnalyticsData analyticsEnvA 200 analyticsStateWarm = (42, analyticsStateWarm, []) ∧
    (getAnalyticsData analyticsEnvA 40000 analyticsStateWarm).2.1.cacheTime = 40000 := by
  have h1 := getAnalyticsData_cache_behavior Nat analyticsEnvA 200 analyticsStateWarm 42
  have h2 := getAnalyticsData_cache_behavior Nat analyticsEnvA 40000 analyticsStateWarm 42
  exact ⟨h1.1 rfl (by decide), (h2.2 rfl (by decide)).1⟩

/-- Claim C9: notify invokes every registered listener, in registration order,
with the same data array, and collects each listener's outcome — the per-call
try/catch means a throwing listener never prevents the later-registered
listeners from running, so the outcome list is exactly the map of the listeners
over the data. -/
theorem notify_invokes_every_listener :
    ∀ (α ε : Type) (listeners : List (α → Except ε Unit)) (data : α),
      notify listeners data = listeners.map fun l => l data := by
  intro α ε listeners data
  induction listeners with
  | nil => rfl
  | cons l ls ih =>
    simp only [notify] at ih ⊢
    cases hl : l data with
    | ok u => simp [runListeners, hl, ih]
    | error e => simp [runListeners, hl, ih]

/-- Claim C10: a servingSize string on which parseInt yields NaN does not make
createRequirement fail — the `|| 0` guard stores serving_size 0 in the
relational row, and the operation resolves with the relational identity
whenever the stores succeed. -/
theorem createRequirement_nan_serving_size :
    ∀ (pf : String → Option Int) (now : Nat) (env : CreateEnv) (r : RequirementInput)
      (row : SupabaseRow),
      jsParseInt r.servingSize = none →
      (createRequirementInsert pf now r).serving_size = 0 ∧
      (env.supabaseResult = Except.ok (some row) → env.mirrorWrite = Except.ok () →
        env.activityWrite = Except.ok () →
        (createRequirement pf now env r).result = Except.ok row.id) := by
  intro pf now env r row h
  constructor
  · simp [createRequirementInsert, h, jsOrZero]
  · intro h1 h2 h3
    simp [createRequirement, h1, h2, h3]

/-- Claim C10 (witness): the theorem applied at the concrete non-numeric
servingSize abc with all stores succeeding. -/
theorem createRequirement_nan_serving_size_witness :
    (createRequirementInsert pf0 5 requirementInputNan).serving_size = 0 ∧
    (createRequirement pf0 5 envAllOkB requirementInputNan).result = Except.ok "sb-2" := by
  have h := createRequirement_nan_serving_size pf0 5 envAllOkB requirementInputNan rowB
    (by decide)
  exact ⟨h.1, h.2 rfl rfl rfl⟩
